import Mathlib

/-!
Verification of the JWT authentication core of `src/3c/ej3c2.py`
(Flask + PyJWT exercise): token issuance (`generate_jwt_token`), the
request guard (`jwt_required` / its inner `decorated_function`), and the
`login` handler.

Modelling conventions:
* Timestamps are natural numbers of whole Unix seconds, which is the
  granularity at which PyJWT serializes `datetime` claims (it floors to
  seconds via `timegm(utctimetuple())`).
* Each call to `datetime.datetime.utcnow()` in the source is modelled by
  an explicit parameter: `generate_jwt_token` reads the clock twice
  (lines 46 and 47) and `login` reads it a third time (line 172), so the
  model takes `t1 t2` (resp. `t1 t2 t3`).  A monotone wall clock gives
  `t1 ≤ t2 ≤ t3`; the reads need not be equal.
* The PyJWT library (not part of this repository) is modelled as an
  idealized signed-token scheme: `jwt_encode` serializes the payload
  together with the signing key into an injectively parseable character
  list; `jwt_decode` parses, then checks the bound key against the
  expected key (a perfect MAC: a signature verifies exactly when it was
  produced with the same key over the same payload), then validates the
  registered claims in PyJWT order — structure/signature first, then
  `iat` (a future `iat` raises `ImmatureSignatureError`, a subclass of
  `InvalidTokenError`), then `exp` (`exp <= now` raises
  `ExpiredSignatureError`).
* JSON login bodies are modelled by their `username` (string) and
  `password` (string or null) fields, each optionally present; other
  JSON shapes do not occur in the claims under verification.
-/

namespace Ej3c2

/-- Module configuration, line 21 of the source: the process-wide signing
secret. -/
def JWT_SECRET_KEY : String := "clave_secreta_jwt_para_firmar_tokens"

/-- Module configuration, line 22 of the source:
`datetime.timedelta(hours=1)`, i.e. 3600 seconds of token lifetime. -/
def JWT_EXPIRATION_DELTA : Nat := 3600

/-- The claims bound into a token by lines 44-48 of the source:
`sub` (subject), `iat` (issued at), `exp` (expiration), with the
timestamps in whole Unix seconds. -/
structure Payload where
  sub : String
  iat : Nat
  exp : Nat
deriving DecidableEq

/-- Unary marker encoding of a natural number inside a token: `n` ones
followed by a terminating zero character.  Chosen for its trivially
invertible parse; the concrete alphabet is irrelevant to the claims. -/
def natMark (n : Nat) : List Char := List.replicate n '1' ++ ['0']

/-- Inverse of `natMark`: consume leading ones up to a zero, return the
count and the remaining characters; fail on any other shape. -/
def parseUnary : List Char → Option (Nat × List Char)
  | [] => none
  | c :: r =>
    if c = '1' then (parseUnary r).map (fun x => (x.1 + 1, x.2))
    else if c = '0' then some (0, r) else none

/-- Serialized form of a signed token: the `iat` and `exp` claims, then
the length-prefixed signing key (the idealized MAC binds the exact key),
then the subject as the remainder of the string. -/
def tokData (p : Payload) (key : String) : List Char :=
  natMark p.iat ++ (natMark p.exp ++ (natMark key.length ++ (key.data ++ p.sub.data)))

/-- Model of `jwt.encode(payload, key, algorithm='HS256')`: the opaque
token string. -/
def jwt_encode (p : Payload) (key : String) : String :=
  ⟨tokData p key⟩

/-- Parse an arbitrary character list as a signed token, recovering the
payload and the key that signed it; any list not produced by `tokData`
fails.  This makes `tokData` injective in `(payload, key)`: tokens are
tamper-evident. -/
def parseTok (l : List Char) : Option (Payload × String) :=
  match parseUnary l with
  | none => none
  | some (iatv, r1) =>
    match parseUnary r1 with
    | none => none
    | some (expv, r2) =>
      match parseUnary r2 with
      | none => none
      | some (klen, r3) =>
        if klen ≤ r3.length then
          some (⟨⟨r3.drop klen⟩, iatv, expv⟩, ⟨r3.take klen⟩)
        else none

/-- The two decode failures the guard distinguishes: PyJWT raises
`ExpiredSignatureError` for an expired otherwise-valid token, and some
other subclass of `InvalidTokenError` (DecodeError, InvalidSignatureError,
ImmatureSignatureError, ...) for everything else. -/
inductive JwtErr where
  | expired
  | invalid
deriving DecidableEq

/-- Model of `jwt.decode(token, key, algorithms=['HS256'])` at current
time `now`: verify structure and signature first, then validate claims in
PyJWT order (`iat` before `exp`); `exp <= now` counts as expired. -/
def jwt_decode (tok : String) (key : String) (now : Nat) : Except JwtErr Payload :=
  match parseTok tok.data with
  | none => .error .invalid
  | some (p, k) =>
    if k ≠ key then .error .invalid
    else if now < p.iat then .error .invalid
    else if p.exp ≤ now then .error .expired
    else .ok p

/-- Source lines 44-49: `generate_jwt_token(username)`.  The two
`datetime.datetime.utcnow()` reads (line 46 for `iat`, line 47 for `exp`)
are the explicit parameters `t1` and `t2`. -/
def generate_jwt_token (username : String) (t1 t2 : Nat) : String :=
  jwt_encode ⟨username, t1, t2 + JWT_EXPIRATION_DELTA⟩ JWT_SECRET_KEY

/-- Python `str.lower()` restricted to the characters that occur in
authorization scheme names. -/
def lowerStr (l : List Char) : List Char := l.map Char.toLower

/-- Python `s.split(' ', 1)` followed by unpacking into two variables:
`none` models the `ValueError` raised when the string holds no space;
otherwise the parts before and after the first space. -/
def splitFirstSpace : List Char → Option (List Char × List Char)
  | [] => none
  | c :: r =>
    if c = ' ' then some ([], r)
    else (splitFirstSpace r).map (fun x => (c :: x.1, x.2))

/-- Source lines 64-100, the body of `decorated_function`: the guard
decision on the raw `Authorization` header value (`none` models an absent
header) at current time `now`.  `Except.ok p` means the decorated handler
is invoked, with `p` the payload decoded at line 87; `Except.error` is
the `(status, body-message)` of the returned JSON error. -/
def authorize (header : Option String) (now : Nat) : Except (Nat × String) Payload :=
  match header with
  | none => .error (401, "Token inválido o ausente")
  | some h =>
    if h.data = [] then .error (401, "Token inválido o ausente")
    else
      match splitFirstSpace h.data with
      | none => .error (401, "Token inválido o ausente")
      | some (ty, tokChars) =>
        if lowerStr ty ≠ "bearer".data then .error (401, "Token inválido o ausente")
        else
          match jwt_decode ⟨tokChars⟩ JWT_SECRET_KEY now with
          | .error .expired => .error (401, "Token expirado")
          | .error .invalid => .error (401, "Token inválido o ausente")
          | .ok p => .ok p

/-- Source lines 25-27: the fixed credential store, as an association
list. -/
def USER_CREDENTIALS : List (String × String) := [("usuario_demo", "password123")]

/-- JSON values that can appear in the `username`/`password` fields of a
login body in the claims under verification: strings and `null`. -/
inductive Json where
  | str (s : String)
  | null
deriving DecidableEq

/-- Python `==` between the result of `USER_CREDENTIALS.get(username)`
(`None` or a stored password string) and the supplied JSON password
value: `None == None` is `True`, `None` never equals a string, strings
compare by value. -/
def pyEq : Option String → Json → Bool
  | none, .null => true
  | some s, .str t => s == t
  | _, _ => false

/-- A parsed JSON login body: each field is `none` when the key is absent
from the object. -/
structure LoginBody where
  username : Option String
  password : Option Json
deriving DecidableEq

/-- Responses of the `login` handler: the success JSON
`{token, expires_at}` (the ISO timestamp modelled by its Unix seconds) or
an error JSON `{error: msg}`. -/
inductive LoginResp where
  | token (tok : String) (expires_at : Nat)
  | errMsg (msg : String)
deriving DecidableEq

/-- Source lines 159-181: the `login` handler on a parsed request body
(`none` models a missing/empty JSON body, which is falsy in Python) and
the three wall-clock reads `t1 t2` (inside `generate_jwt_token`, lines
46-47) and `t3` (line 172).  Returns the HTTP status and response body. -/
def login (body : Option LoginBody) (t1 t2 t3 : Nat) : Nat × LoginResp :=
  match body with
  | none => (400, .errMsg "Username y password son requeridos")
  | some b =>
    match b.username, b.password with
    | some u, some pw =>
      if pyEq (USER_CREDENTIALS.lookup u) pw then
        (200, .token (generate_jwt_token u t1 t2) (t3 + JWT_EXPIRATION_DELTA))
      else
        (401, .errMsg "Credenciales inválidas")
    | _, _ => (400, .errMsg "Username y password son requeridos")

/-! ### Codec lemmas -/

theorem parseUnary_natMark (n : Nat) (r : List Char) :
    parseUnary (natMark n ++ r) = some (n, r) := by
  induction n with
  | zero => rfl
  | succ k ih =>
    have h : parseUnary (natMark (k + 1) ++ r)
        = (parseUnary (natMark k ++ r)).map (fun x => (x.1 + 1, x.2)) := rfl
    rw [h, ih]
    rfl

theorem take_len_append {α : Type} (l₁ l₂ : List α) :
    (l₁ ++ l₂).take l₁.length = l₁ := by
  induction l₁ with
  | nil => rfl
  | cons a l ih => simp [List.take, ih]

theorem drop_len_append {α : Type} (l₁ l₂ : List α) :
    (l₁ ++ l₂).drop l₁.length = l₂ := by
  induction l₁ with
  | nil => rfl
  | cons a l ih => simp [List.drop, ih]

theorem take_strlen_append (s : String) (l : List Char) :
    (s.data ++ l).take s.length = s.data :=
  take_len_append s.data l

theorem drop_strlen_append (s : String) (l : List Char) :
    (s.data ++ l).drop s.length = l :=
  drop_len_append s.data l

theorem parseTok_tokData (p : Payload) (key : String) :
    parseTok (tokData p key) = some (p, key) := by
  have hlen : key.length ≤ (key.data ++ p.sub.data).length := by
    show key.data.length ≤ (key.data ++ p.sub.data).length
    simp [List.length_append]
  simp only [tokData, parseTok, parseUnary_natMark, if_pos hlen,
    take_strlen_append, drop_strlen_append]

/-! ### Decode/encode lemmas (the idealized PyJWT behavior) -/

theorem jwt_decode_encode (p : Payload) (key : String) (now : Nat)
    (h1 : p.iat ≤ now) (h2 : now < p.exp) :
    jwt_decode (jwt_encode p key) key now = .ok p := by
  have hd : (jwt_encode p key).data = tokData p key := rfl
  simp [jwt_decode, hd, parseTok_tokData, Nat.not_lt.mpr h1, Nat.not_le.mpr h2]

theorem jwt_decode_encode_expired (p : Payload) (key : String) (now : Nat)
    (h1 : p.iat ≤ now) (h2 : p.exp ≤ now) :
    jwt_decode (jwt_encode p key) key now = .error .expired := by
  have hd : (jwt_encode p key).data = tokData p key := rfl
  simp [jwt_decode, hd, parseTok_tokData, Nat.not_lt.mpr h1, h2]

theorem jwt_decode_encode_wrong_key (p : Payload) (k key : String)
    (hk : k ≠ key) (now : Nat) :
    jwt_decode (jwt_encode p k) key now = .error .invalid := by
  have hd : (jwt_encode p k).data = tokData p k := rfl
  simp [jwt_decode, hd, parseTok_tokData, hk]

/-! ### Guard reduction -/

theorem authorize_bearer (tok : String) (now : Nat) :
    authorize (some ("Bearer " ++ tok)) now =
      match jwt_decode tok JWT_SECRET_KEY now with
      | .error .expired => .error (401, "Token expirado")
      | .error .invalid => .error (401, "Token inválido o ausente")
      | .ok p => .ok p := rfl

theorem JWT_EXPIRATION_DELTA_eq : JWT_EXPIRATION_DELTA = 3600 := rfl

/-! ### Claim theorems -/

/-- C1: Round-trip — for every subject, issuing a token (clock reads
`t1 ≤ t2` at lines 46-47) and presenting `Bearer token` to the guard
before expiry, under the process signing secret, succeeds, and the
authenticated principal — the `sub` claim of the payload the guard
decodes at line 87, its success value — equals the original subject. -/
theorem C1_issue_authorize_round_trip (subject : String) (t1 t2 now : Nat)
    (h1 : t1 ≤ now) (h2 : now < t2 + JWT_EXPIRATION_DELTA) :
    ∃ p, authorize (some ("Bearer " ++ generate_jwt_token subject t1 t2)) now
        = .ok p ∧ p.sub = subject := by
  refine ⟨⟨subject, t1, t2 + JWT_EXPIRATION_DELTA⟩, ?_, rfl⟩
  have hd : jwt_decode (generate_jwt_token subject t1 t2) JWT_SECRET_KEY now
      = .ok ⟨subject, t1, t2 + JWT_EXPIRATION_DELTA⟩ :=
    jwt_decode_encode ⟨subject, t1, t2 + JWT_EXPIRATION_DELTA⟩ JWT_SECRET_KEY now h1 h2
  rw [authorize_bearer, hd]

/-- Witness for C1 at subject `usuario_demo`, clock reads 0/0, verified
at time 0. -/
theorem C1_witness :
    ∃ p, authorize (some ("Bearer " ++ generate_jwt_token "usuario_demo" 0 0)) 0
        = .ok p ∧ p.sub = "usuario_demo" :=
  C1_issue_authorize_round_trip "usuario_demo" 0 0 0 (Nat.le_refl 0) (by decide)

/-- C2 counterexample: the guard response for an absent header
(MissingCredentials) and for the wrong-scheme header `Basic abc`
(MalformedCredentials) are identical — same 401 status and same body —
so the four failure kinds are not pairwise distinguishable in the
response body, contrary to the claim. -/
theorem C2_counterexample :
    authorize none 0 = authorize (some "Basic abc") 0 ∧
    authorize none 0 = .error (401, "Token inválido o ausente") := ⟨rfl, rfl⟩

/-- C2 amended: all four guard failure kinds map to the 401 status, but
only ExpiredToken carries a distinguishable body (`Token expirado`);
MissingCredentials, MalformedCredentials and InvalidToken all share the
identical body `Token inválido o ausente`. -/
theorem C2_failure_taxonomy (p : Payload) (k : String) (now : Nat)
    (hk : k ≠ JWT_SECRET_KEY) (hiat : p.iat ≤ now) (hexp : p.exp ≤ now) :
    authorize none now = .error (401, "Token inválido o ausente") ∧
    authorize (some "Basic abc") now = .error (401, "Token inválido o ausente") ∧
    authorize (some ("Bearer " ++ jwt_encode p k)) now
      = .error (401, "Token inválido o ausente") ∧
    authorize (some ("Bearer " ++ jwt_encode p JWT_SECRET_KEY)) now
      = .error (401, "Token expirado") ∧
    ("Token expirado" : String) ≠ "Token inválido o ausente" := by
  refine ⟨rfl, rfl, ?_, ?_, by decide⟩
  · rw [authorize_bearer, jwt_decode_encode_wrong_key p k JWT_SECRET_KEY hk now]
  · rw [authorize_bearer, jwt_decode_encode_expired p JWT_SECRET_KEY now hiat hexp]

/-- Witness for the amended C2 at payload `(u, 0, 0)`, forging key `x`,
time 0. -/
theorem C2_witness :
    authorize none 0 = .error (401, "Token inválido o ausente") ∧
    authorize (some "Basic abc") 0 = .error (401, "Token inválido o ausente") ∧
    authorize (some ("Bearer " ++ jwt_encode ⟨"u", 0, 0⟩ "x")) 0
      = .error (401, "Token inválido o ausente") ∧
    authorize (some ("Bearer " ++ jwt_encode ⟨"u", 0, 0⟩ JWT_SECRET_KEY)) 0
      = .error (401, "Token expirado") ∧
    ("Token expirado" : String) ≠ "Token inválido o ausente" :=
  C2_failure_taxonomy ⟨"u", 0, 0⟩ "x" 0 (by decide) (Nat.le_refl 0) (Nat.le_refl 0)

/-- C3: for every username `u` outside the credential store, the login
body with username `u` and a JSON-null password passes the
required-fields check and — because `USER_CREDENTIALS.get(u)` and the
password are both `None`, which compare equal — is answered with a 200
response carrying a signed token whose subject is `u`, not with the
InvalidCredentials error. -/
theorem C3_null_password_unknown_user (u : String)
    (hu : USER_CREDENTIALS.lookup u = none) (t1 t2 t3 : Nat) :
    login (some ⟨some u, some Json.null⟩) t1 t2 t3
      = (200, .token (jwt_encode ⟨u, t1, t2 + JWT_EXPIRATION_DELTA⟩ JWT_SECRET_KEY)
          (t3 + JWT_EXPIRATION_DELTA)) := by
  simp [login, hu, pyEq, generate_jwt_token]

/-- Witness for C3 at the unknown username `ghost`. -/
theorem C3_witness :
    login (some ⟨some "ghost", some Json.null⟩) 1 2 3
      = (200, .token (jwt_encode ⟨"ghost", 1, 2 + JWT_EXPIRATION_DELTA⟩ JWT_SECRET_KEY)
          (3 + JWT_EXPIRATION_DELTA)) :=
  C3_null_password_unknown_user "ghost" (by decide) 1 2 3

/-- C4: expiry boundary — a token issued at `iat` with the fixed
lifetime verifies successfully at `iat + lifetime - 1` and fails with
the ExpiredToken response at `iat + lifetime`: the instant
`now = expiresAt` is already expired. -/
theorem C4_expiry_boundary (s : String) (iatv : Nat) :
    (∃ p, authorize (some ("Bearer " ++ generate_jwt_token s iatv iatv))
        (iatv + JWT_EXPIRATION_DELTA - 1) = .ok p) ∧
    authorize (some ("Bearer " ++ generate_jwt_token s iatv iatv))
        (iatv + JWT_EXPIRATION_DELTA) = .error (401, "Token expirado") := by
  constructor
  · refine ⟨⟨s, iatv, iatv + JWT_EXPIRATION_DELTA⟩, ?_⟩
    have hd : jwt_decode (generate_jwt_token s iatv iatv) JWT_SECRET_KEY
        (iatv + JWT_EXPIRATION_DELTA - 1)
        = .ok ⟨s, iatv, iatv + JWT_EXPIRATION_DELTA⟩ := by
      refine jwt_decode_encode _ _ _ ?_ ?_
      · show iatv ≤ iatv + JWT_EXPIRATION_DELTA - 1
        rw [JWT_EXPIRATION_DELTA_eq]
        omega
      · show iatv + JWT_EXPIRATION_DELTA - 1 < iatv + JWT_EXPIRATION_DELTA
        rw [JWT_EXPIRATION_DELTA_eq]
        omega
    rw [authorize_bearer, hd]
  · have hd : jwt_decode (generate_jwt_token s iatv iatv) JWT_SECRET_KEY
        (iatv + JWT_EXPIRATION_DELTA)
        = .error .expired :=
      jwt_decode_encode_expired ⟨s, iatv, iatv + JWT_EXPIRATION_DELTA⟩ JWT_SECRET_KEY
        (iatv + JWT_EXPIRATION_DELTA) (Nat.le_add_right iatv JWT_EXPIRATION_DELTA)
        (Nat.le_refl _)
    rw [authorize_bearer, hd]

/-- C5 counterexample: `generate_jwt_token` reads the wall clock twice
(line 46 for `iat`, line 47 for `exp`); when the reads straddle a second
boundary — first read at second 0, second at second 1 — the token's
`exp` claim is 3601, which is not `iat + lifetime = 3600`.  So the
expiresAt claim does not always equal issuedAt plus the lifetime
exactly. -/
theorem C5_counterexample :
    parseTok (generate_jwt_token "u" 0 1).data
      = some (⟨"u", 0, 1 + JWT_EXPIRATION_DELTA⟩, JWT_SECRET_KEY) ∧
    1 + JWT_EXPIRATION_DELTA ≠ 0 + JWT_EXPIRATION_DELTA := by
  constructor
  · have hdt : (generate_jwt_token "u" 0 1).data
        = tokData ⟨"u", 0, 1 + JWT_EXPIRATION_DELTA⟩ JWT_SECRET_KEY := rfl
    rw [hdt, parseTok_tokData]
  · decide

/-- C5 amended: the token issued with clock reads `t1 ≤ t2` binds the
claims `(sub, iat = t1, exp = t2 + lifetime)`; the invariant
`expiresAt > issuedAt` always holds, and `expiresAt = issuedAt +
lifetime` exactly holds whenever the two clock reads return the same
second. -/
theorem C5_expiry_claim_bound (s : String) (t1 t2 : Nat) (h : t1 ≤ t2) :
    parseTok (generate_jwt_token s t1 t2).data
      = some (⟨s, t1, t2 + JWT_EXPIRATION_DELTA⟩, JWT_SECRET_KEY) ∧
    t1 < t2 + JWT_EXPIRATION_DELTA ∧
    (t1 = t2 → t2 + JWT_EXPIRATION_DELTA = t1 + JWT_EXPIRATION_DELTA) := by
  refine ⟨?_, ?_, fun he => by rw [he]⟩
  · have hdt : (generate_jwt_token s t1 t2).data
        = tokData ⟨s, t1, t2 + JWT_EXPIRATION_DELTA⟩ JWT_SECRET_KEY := rfl
    rw [hdt, parseTok_tokData]
  · rw [JWT_EXPIRATION_DELTA_eq]
    omega

/-- Witness for the amended C5 at subject `u`, both clock reads 0. -/
theorem C5_witness :
    parseTok (generate_jwt_token "u" 0 0).data
      = some (⟨"u", 0, 0 + JWT_EXPIRATION_DELTA⟩, JWT_SECRET_KEY) ∧
    0 < 0 + JWT_EXPIRATION_DELTA ∧
    (0 = 0 → 0 + JWT_EXPIRATION_DELTA = 0 + JWT_EXPIRATION_DELTA) :=
  C5_expiry_claim_bound "u" 0 0 (Nat.le_refl 0)

/-- C6: a token signed with any key other than the process signing
secret is rejected as InvalidToken (body `Token inválido o ausente`) at
every time whatsoever — in particular also when its `exp` claim lies in
the past — because signature verification precedes the expiry check;
the forged token is never answered with the ExpiredToken body. -/
theorem C6_forged_never_expired (p : Payload) (k : String)
    (hk : k ≠ JWT_SECRET_KEY) (now : Nat) :
    authorize (some ("Bearer " ++ jwt_encode p k)) now
      = .error (401, "Token inválido o ausente") := by
  rw [authorize_bearer, jwt_decode_encode_wrong_key p k JWT_SECRET_KEY hk now]

/-- Witness for C6: a token forged with key `attacker` that is also past
its expiry (`exp = 0`, presented at time 5) gets the InvalidToken
response. -/
theorem C6_witness :
    authorize (some ("Bearer " ++ jwt_encode ⟨"u", 0, 0⟩ "attacker")) 5
      = .error (401, "Token inválido o ausente") :=
  C6_forged_never_expired ⟨"u", 0, 0⟩ "attacker" (by decide) 5

/-- C7: evaluation at the failing input — the login request with the
existing username `usuario_demo` and the wrong password `wrongpass` gets
the uniform 401 InvalidCredentials response, but the request with the
nonexistent username `ghost` and a JSON-null password gets a 200
response with a signed token, so the two responses differ: the code
leaks (and worse, grants access) where the claim requires the identical
InvalidCredentials response. -/
theorem C7_leak_eval :
    login (some ⟨some "usuario_demo", some (Json.str "wrongpass")⟩) 0 0 0
      = (401, .errMsg "Credenciales inválidas") ∧
    login (some ⟨some "ghost", some Json.null⟩) 0 0 0
      = (200, .token (generate_jwt_token "ghost" 0 0) (0 + JWT_EXPIRATION_DELTA)) ∧
    (401 : Nat) ≠ 200 := ⟨rfl, rfl, by decide⟩

/-- C8: a token correctly signed with the process secret and not yet
expired, whose `sub` claim is the empty string, is accepted by the
guard — no subject non-emptiness check exists on the verification
path. -/
theorem C8_empty_subject_accepted (iatv expv now : Nat)
    (h1 : iatv ≤ now) (h2 : now < expv) :
    authorize (some ("Bearer " ++ jwt_encode ⟨"", iatv, expv⟩ JWT_SECRET_KEY)) now
      = .ok ⟨"", iatv, expv⟩ := by
  rw [authorize_bearer, jwt_decode_encode ⟨"", iatv, expv⟩ JWT_SECRET_KEY now h1 h2]

/-- Witness for C8: the empty-subject token with `iat = 0`, `exp = 1`,
verified at time 0, is accepted. -/
theorem C8_witness :
    authorize (some ("Bearer " ++ jwt_encode ⟨"", 0, 1⟩ JWT_SECRET_KEY)) 0
      = .ok ⟨"", 0, 1⟩ :=
  C8_empty_subject_accepted 0 1 0 (Nat.le_refl 0) (by decide)

/-- C9: guard totality — for every possible Authorization header value
(absent or any string) and any time, the guard either accepts (the
protected handler is invoked with the decoded payload) or returns a 401
error response; every failure branch (missing header, header split,
token decode, expiry) is mapped to a 401, never to an unhandled
failure. -/
theorem C9_guard_totality (header : Option String) (now : Nat) :
    (∃ p, authorize header now = .ok p) ∨
    (∃ msg, authorize header now = .error (401, msg)) := by
  cases header with
  | none => exact .inr ⟨_, rfl⟩
  | some h =>
    unfold authorize
    repeat'
      first
      | exact .inr ⟨_, rfl⟩
      | exact .inl ⟨_, rfl⟩
      | split

/-- C10 counterexample: `login` computes the displayed `expires_at` from
a third wall-clock read (line 172), independent of the token's own
`exp` claim (line 47); when the reads straddle a second boundary — token
clock reads at second 0, response read at second 1 — the successful
response body carries `expires_at = 3601` while the token's `exp` claim
is 3600, so the displayed expiry does not always equal the token's. -/
theorem C10_counterexample :
    login (some ⟨some "usuario_demo", some (Json.str "password123")⟩) 0 0 1
      = (200, .token (jwt_encode ⟨"usuario_demo", 0, 0 + JWT_EXPIRATION_DELTA⟩ JWT_SECRET_KEY)
          (1 + JWT_EXPIRATION_DELTA)) ∧
    parseTok (jwt_encode ⟨"usuario_demo", 0, 0 + JWT_EXPIRATION_DELTA⟩ JWT_SECRET_KEY).data
      = some (⟨"usuario_demo", 0, 0 + JWT_EXPIRATION_DELTA⟩, JWT_SECRET_KEY) ∧
    1 + JWT_EXPIRATION_DELTA ≠ 0 + JWT_EXPIRATION_DELTA := by
  refine ⟨rfl, ?_, by decide⟩
  exact parseTok_tokData ⟨"usuario_demo", 0, 0 + JWT_EXPIRATION_DELTA⟩ JWT_SECRET_KEY

/-- C10 amended: on a successful login the response body's `expires_at`
is the third clock read plus the lifetime while the token's `exp` claim
is the second clock read plus the lifetime; the two agree exactly when
those two clock reads return the same second. -/
theorem C10_expires_at_display (u pw : String) (t1 t2 t3 : Nat)
    (hcred : pyEq (USER_CREDENTIALS.lookup u) (Json.str pw) = true) (h23 : t2 = t3) :
    login (some ⟨some u, some (Json.str pw)⟩) t1 t2 t3
      = (200, .token (jwt_encode ⟨u, t1, t2 + JWT_EXPIRATION_DELTA⟩ JWT_SECRET_KEY)
          (t3 + JWT_EXPIRATION_DELTA)) ∧
    t3 + JWT_EXPIRATION_DELTA = t2 + JWT_EXPIRATION_DELTA := by
  constructor
  · simp [login, hcred, generate_jwt_token]
  · rw [h23]

/-- Witness for the amended C10 at the demo credentials, all clock reads
at second 7. -/
theorem C10_witness :
    login (some ⟨some "usuario_demo", some (Json.str "password123")⟩) 7 7 7
      = (200, .token (jwt_encode ⟨"usuario_demo", 7, 7 + JWT_EXPIRATION_DELTA⟩ JWT_SECRET_KEY)
          (7 + JWT_EXPIRATION_DELTA)) ∧
    7 + JWT_EXPIRATION_DELTA = 7 + JWT_EXPIRATION_DELTA :=
  C10_expires_at_display "usuario_demo" "password123" 7 7 7 (by decide) rfl

end Ej3c2
